import Mathlib

/-!
Verification of the Lifeband_MAA repository scripts.

The repository holds two firmware header generators
(`src/firmware/simple_gen.py`, `src/firmware/generate_tflite_models.py`)
and one Blender automation script (`src/scripts/setup_pbr_textures.py`).
Below, each Python value or routine the claims mention is embedded as a
Lean definition translated from the source; the theorems at the end of
the file settle the claims.
-/

/-! ## String helpers mirroring the Python primitives used by the scripts

Python string operations appearing in the source: `str.lower()`,
`str.upper()` (all table keys and model names are ASCII, where these agree
with `Char.toLower` / `Char.toUpper`), and the containment test
`needle in hay` (contiguous-substring test, true for the empty needle). -/

/-- `charsStartWith needle hay` is true when `needle` is an initial
segment of `hay` (character-list version of string startswith). -/
def charsStartWith : List Char → List Char → Bool
  | [], _ => true
  | _ :: _, [] => false
  | a :: as, b :: bs => a == b && charsStartWith as bs

/-- `charsContain needle hay` is true when `needle` occurs as a
contiguous run inside `hay`; models Python's `needle in hay` on strings
(in particular the empty needle is contained in everything). -/
def charsContain : List Char → List Char → Bool
  | needle, [] => charsStartWith needle []
  | needle, b :: bs => charsStartWith needle (b :: bs) || charsContain needle bs

/-- Python `needle in hay` on strings. -/
def pySubstr (needle hay : String) : Bool :=
  charsContain needle.data hay.data

/-- Python `s.lower()` (the scripts only lowercase ASCII data, where
Python's `lower` agrees with `Char.toLower` per character). -/
def pyLower (s : String) : String :=
  ⟨s.data.map Char.toLower⟩

/-- Python `s.upper()` (ASCII, as above). -/
def pyUpper (s : String) : String :=
  ⟨s.data.map Char.toUpper⟩

/-! ## src/scripts/setup_pbr_textures.py — configuration tables -/

/-- `MESH_MATERIAL_MAP` (setup_pbr_textures.py lines 67-99): the static
mesh-name-substring → material-identifier table, as a list of pairs in
Python dict declaration order (all 26 keys are distinct, so the dict
keeps every entry in insertion order). -/
def MESH_MATERIAL_MAP : List (String × String) :=
  [("saree", "saree"), ("Saree", "saree"), ("cloth", "saree"),
   ("Cloth", "saree"), ("garment", "saree"),
   ("hair", "hair"), ("Hair", "hair"), ("head_hair", "hair"),
   ("mother_hair", "hair"),
   ("mother_skin", "mother_skin"), ("Mother_Skin", "mother_skin"),
   ("skin", "mother_skin"), ("Skin", "mother_skin"),
   ("body", "mother_skin"), ("face", "mother_skin"),
   ("baby_skin", "baby_skin"), ("Baby_Skin", "baby_skin"),
   ("baby_body", "baby_skin"),
   ("baby_hair", "baby_hair"), ("Baby_Hair", "baby_hair"),
   ("baby_head", "baby_hair"),
   ("base", "base"), ("Base", "base"), ("pedestal", "base"),
   ("Pedestal", "base"), ("stand", "base")]

/-- The keys of the `COLORS` table (setup_pbr_textures.py lines 39-46) in
declaration order: the six material identifiers. -/
def COLORS_keys : List String :=
  ["saree", "hair", "mother_skin", "baby_skin", "baby_hair", "base"]

/-- The per-entry test of the matching loop (setup_pbr_textures.py
line 285): `mesh_name.lower() in obj.name.lower()`. -/
def matchEntry (objName : String) (p : String × String) : Bool :=
  pySubstr (pyLower p.1) (pyLower objName)

/-- The matching loop of `main` (setup_pbr_textures.py lines 283-288):
scan the table in order, return the material of the first entry whose
lowercased key is a substring of the lowercased object name; `none` when
no entry matches (`mat_type` stays `None`). -/
def findMat (objName : String) : List (String × String) → Option String
  | [] => none
  | p :: rest => if matchEntry objName p then some p.2 else findMat objName rest

/-- The material looked up for a mesh object name, over the full table. -/
def meshMaterial (objName : String) : Option String :=
  findMat objName MESH_MATERIAL_MAP

/-! ## src/firmware — byte buffers of the two model-generator scripts -/

/-- The 4-byte ASCII magic `b'TFL3'` both generators start their buffer
with (`T` = 84, `F` = 70, `L` = 76, `3` = 51). -/
def TFL3_bytes : List Nat := [84, 70, 76, 51]

/-- The byte buffer `model_data` built inside `generate_c_header`
(simple_gen.py lines 16-18): `b'TFL3'` followed by `b'\x00' * 1020`.
The function's arguments do not influence the buffer. -/
def simpleGenBuffer (modelName description : String) : List Nat :=
  TFL3_bytes ++ List.replicate 1020 0

/-- `generate_minimal_tflite_stub(input_size, output_size)`
(generate_tflite_models.py lines 38-55): `b'TFL3'` followed by
`b'\x00' * 1000`; the two size parameters are never read. -/
def tfliteStubBuffer (inputSize outputSize : Nat) : List Nat :=
  TFL3_bytes ++ List.replicate 1000 0

/-- `arrhythmia_model = generate_minimal_tflite_stub(5, 5)`
(generate_tflite_models.py line 61). -/
def arrhythmiaModel : List Nat := tfliteStubBuffer 5 5

/-- `anemia_model = generate_minimal_tflite_stub(5, 4)`
(generate_tflite_models.py line 62). -/
def anemiaModel : List Nat := tfliteStubBuffer 5 4

/-- `preeclampsia_model = generate_minimal_tflite_stub(5, 4)`
(generate_tflite_models.py line 63). -/
def preeclampsiaModel : List Nat := tfliteStubBuffer 5 4

/-! ## src/firmware/simple_gen.py — emitted header text -/

/-- Lowercase hexadecimal digit, as produced by Python's `%x` format. -/
def hexDigitChar (n : Nat) : Char :=
  if n < 10 then Char.ofNat (48 + n) else Char.ofNat (87 + n)

/-- Python `f'0x{byte:02x}'` for a byte value (`0 ≤ b < 256`). -/
def byteHex (b : Nat) : String :=
  "0x" ++ String.mk [hexDigitChar (b / 16 % 16), hexDigitChar (b % 16)]

/-- One iteration of the emission loop (simple_gen.py lines 29-36): the
byte literal, then — except after the last byte — a comma followed by a
newline plus indent every 16 bytes, otherwise a space. -/
def byteChunk (total i b : Nat) : String :=
  byteHex b ++
    (if i < total - 1 then
      "," ++ (if (i + 1) % 16 == 0 then "\n  " else " ")
    else "")

/-- The chunks the loop writes, one per enumerated byte of the buffer. -/
def byteChunks (data : List Nat) : List String :=
  data.enum.map (fun p => byteChunk data.length p.1 p.2)

/-- The complete text the loop writes between the braces of the array
initializer. -/
def byteLiterals (data : List Nat) : String :=
  String.join (byteChunks data)

/-- `guard = model_name.upper() + '_H'` (simple_gen.py line 21). -/
def guardOf (modelName : String) : String :=
  pyUpper modelName ++ "_H"

/-- `header_path = f'models_h/{model_name}.h'` (simple_gen.py line 15). -/
def headerPath (modelName : String) : String :=
  "models_h/" ++ modelName ++ ".h"

/-- The full text `generate_c_header` writes to the header file
(simple_gen.py lines 20-39), transcribed write-by-write. -/
def headerText (modelName description : String) : String :=
  "#ifndef " ++ guardOf modelName ++ "\n" ++
  "#define " ++ guardOf modelName ++ "\n\n" ++
  "// Model: " ++ description ++ "\n" ++
  "// NOTE: Placeholder - firmware uses rule-based AI\n\n" ++
  "const unsigned char " ++ modelName ++ "_tflite[] " ++
  "__attribute__((aligned(16))) = \x7b\n  " ++
  byteLiterals (simpleGenBuffer modelName description) ++ "\n\x7d;\n\n" ++
  "const unsigned int " ++ modelName ++ "_tflite_len = " ++
  toString (simpleGenBuffer modelName description).length ++ ";\n\n" ++
  "#endif // " ++ guardOf modelName ++ "\n"

/-! ## src/scripts/setup_pbr_textures.py — effect traces -/

/-- The effectful statements of `main` (setup_pbr_textures.py
lines 217-333) in program order, at statement granularity. -/
inductive MainStep where
  | printBanner
  | clearScene
  | printInputMissing
  | importGlbStep
  | makeTextureDir
  | generateTexturesStep
  | createMaterialsStep
  | assignMaterialsStep
  | exportGlbStep
  | printChecklist
deriving DecidableEq

/-- The trace of `main`, parameterized by the one runtime condition it
branches on: `os.path.exists(INPUT_GLB)` (line 227). When the input file
is missing, `main` prints the error and returns (line 228-229); otherwise
it runs the import/texture/material/export sequence to the end. -/
def mainSteps (inputExists : Bool) : List MainStep :=
  [MainStep.printBanner, MainStep.clearScene] ++
    (if inputExists then
      [MainStep.importGlbStep, MainStep.makeTextureDir,
       MainStep.generateTexturesStep, MainStep.createMaterialsStep,
       MainStep.assignMaterialsStep, MainStep.exportGlbStep,
       MainStep.printChecklist]
    else [MainStep.printInputMissing])

/-- What the `__main__` guard prints (setup_pbr_textures.py
lines 336-343). -/
inductive TopOutput where
  | successMessage
  | errorMessage (msg : String)
  | stackTrace
deriving DecidableEq

/-- The try/except wrapper around `main`: on normal return it prints the
success line; when `main` raises with message `msg`, the catch-all prints
`ERROR: {msg}` and then the traceback. -/
def topLevel (raised : Option String) : List TopOutput :=
  match raised with
  | none => [TopOutput.successMessage]
  | some msg => [TopOutput.errorMessage msg, TopOutput.stackTrace]

/-! ## src/scripts/setup_pbr_textures.py — texture generation loop -/

/-- The three procedural images created per material type, tagged by the
creating routine (`create_simple_texture`, `create_normal_map`,
`create_roughness_texture`) and carrying the image name. -/
inductive TexImage where
  | simpleTexture (name : String)
  | normalMapTexture (name : String)
  | roughnessTexture (name : String)
deriving DecidableEq

/-- One iteration of the texture loop (setup_pbr_textures.py
lines 240-253): for `mat_type` it creates the `_basecolor`, `_normal`
and `_roughness` images, in that order. -/
def texturesFor (matType : String) : List TexImage :=
  [TexImage.simpleTexture (matType ++ "_basecolor"),
   TexImage.normalMapTexture (matType ++ "_normal"),
   TexImage.roughnessTexture (matType ++ "_roughness")]

/-- All images the loop creates, iterating `COLORS.keys()` in order. -/
def generatedTextures : List TexImage :=
  (COLORS_keys.map texturesFor).join

/-! ## src/scripts/setup_pbr_textures.py — material assignment loop -/

/-- A Blender scene object as the assignment loop sees it: its name, its
`type` string, and its mesh-data material slots (a slot is named by the
material key it holds). -/
structure SceneObject where
  name : String
  objType : String
  materials : List String
deriving DecidableEq

/-- The body of the assignment loop (setup_pbr_textures.py lines 278-294)
for one object: non-mesh objects are skipped (`continue`); otherwise the
table is scanned, and on a match `mat_type` that is a truthy key of the
`materials` dict (whose keys are `COLORS.keys()`), the slots are cleared
and the single matched material is appended. -/
def assignOne (obj : SceneObject) : SceneObject :=
  if obj.objType ≠ "MESH" then obj
  else
    match meshMaterial obj.name with
    | none => obj
    | some mt =>
        if (mt != "") && COLORS_keys.contains mt then
          { obj with materials := [mt] }
        else obj

/-- The whole loop over `bpy.data.objects`. -/
def assignAll (objs : List SceneObject) : List SceneObject :=
  objs.map assignOne

/-! ## Helper lemmas -/

/-- `findMat` is exactly "first matching entry's material, else none". -/
theorem findMat_eq_find (objName : String) (t : List (String × String)) :
    findMat objName t = (t.find? (matchEntry objName)).map Prod.snd := by
  induction t with
  | nil => rfl
  | cons p rest ih =>
      by_cases h : matchEntry objName p
      · simp [findMat, List.find?, h]
      · simp [findMat, List.find?, h, ih]

/-- Any material `findMat` returns is a value of the table. -/
theorem findMat_mem_values (objName : String) (t : List (String × String))
    (m : String) (h : findMat objName t = some m) : m ∈ t.map Prod.snd := by
  induction t with
  | nil => simp [findMat] at h
  | cons p rest ih =>
      by_cases hp : matchEntry objName p
      · simp [findMat, hp] at h
        simp [h]
      · simp [findMat, hp] at h
        simpa using Or.inr (ih h)

/-! ## Claims -/

/-- Claim C1: the mesh-name-to-material matcher is a linear scan over
`MESH_MATERIAL_MAP` in declaration order, testing case-insensitive
substring containment of each key in the object's name; for every name
the result is the material of the earliest matching entry, or no
assignment when no key matches. -/
theorem C1_matcher_first_match (objName : String) :
    meshMaterial objName =
      (MESH_MATERIAL_MAP.find? (matchEntry objName)).map Prod.snd :=
  findMat_eq_find objName MESH_MATERIAL_MAP

/-- Claim C1, exercised at a concrete name. -/
theorem C1_matcher_first_match_witness :
    meshMaterial "Pedestal" =
      (MESH_MATERIAL_MAP.find? (matchEntry "Pedestal")).map Prod.snd :=
  C1_matcher_first_match "Pedestal"

/-- Claim C2: the representative names of the spec evaluate as stated:
`"Mother_Skin_001"` maps to `mother_skin`, `"Pedestal"` maps to `base`,
and `"unknown_mesh"` matches no entry. -/
theorem C2_representative_names :
    meshMaterial "Mother_Skin_001" = some "mother_skin" ∧
    meshMaterial "Pedestal" = some "base" ∧
    meshMaterial "unknown_mesh" = none := by
  refine ⟨?_, ?_, ?_⟩ <;> decide

/-- Claim C3: the entry `("skin", "mother_skin")` precedes
`("baby_skin", "baby_skin")` in table order, so every name whose
lowercase form contains `"skin"` but none of the ten earlier table keys
is assigned `mother_skin`. -/
theorem C3_skin_shadows_baby_skin (objName : String)
    (hskin : pySubstr "skin" (pyLower objName) = true)
    (hnone : ∀ k ∈ (["saree", "Saree", "cloth", "Cloth", "garment", "hair",
        "head_hair", "mother_hair", "mother_skin", "Mother_Skin"] :
        List String), pySubstr (pyLower k) (pyLower objName) = false) :
    meshMaterial objName = some "mother_skin" := by
  have t1 : pySubstr (pyLower "saree") (pyLower objName) = false :=
    hnone "saree" (by decide)
  have t2 : pySubstr (pyLower "Saree") (pyLower objName) = false :=
    hnone "Saree" (by decide)
  have t3 : pySubstr (pyLower "cloth") (pyLower objName) = false :=
    hnone "cloth" (by decide)
  have t4 : pySubstr (pyLower "Cloth") (pyLower objName) = false :=
    hnone "Cloth" (by decide)
  have t5 : pySubstr (pyLower "garment") (pyLower objName) = false :=
    hnone "garment" (by decide)
  have t6 : pySubstr (pyLower "hair") (pyLower objName) = false :=
    hnone "hair" (by decide)
  have t7 : pySubstr (pyLower "Hair") (pyLower objName) = false := by
    have e : pyLower "Hair" = pyLower "hair" := by decide
    rw [e]; exact t6
  have t8 : pySubstr (pyLower "head_hair") (pyLower objName) = false :=
    hnone "head_hair" (by decide)
  have t9 : pySubstr (pyLower "mother_hair") (pyLower objName) = false :=
    hnone "mother_hair" (by decide)
  have t10 : pySubstr (pyLower "mother_skin") (pyLower objName) = false :=
    hnone "mother_skin" (by decide)
  have t11 : pySubstr (pyLower "Mother_Skin") (pyLower objName) = false :=
    hnone "Mother_Skin" (by decide)
  have t12 : pySubstr (pyLower "skin") (pyLower objName) = true := by
    have e : pyLower "skin" = "skin" := by decide
    rw [e]; exact hskin
  simp [meshMaterial, MESH_MATERIAL_MAP, findMat, matchEntry,
    t1, t2, t3, t4, t5, t6, t7, t8, t9, t10, t11, t12]

/-- Claim C3, applied at the concrete name `"Baby_Skin"`: the mesh is
assigned `mother_skin`, not `baby_skin`. -/
theorem C3_skin_shadows_baby_skin_witness :
    meshMaterial "Baby_Skin" = some "mother_skin" :=
  C3_skin_shadows_baby_skin "Baby_Skin" (by decide) (by decide)

/-- Claim C4: every buffer either generator script builds starts with
the 4-byte ASCII tag `TFL3`, is zero from index 4 on, and has a length
that is fixed within its script regardless of the model arguments
(1024 bytes in simple_gen.py, 1004 in generate_tflite_models.py). -/
theorem C4_buffers_fixed_layout (n d n2 d2 : String) (i o i2 o2 : Nat) :
    TFL3_bytes = ['T'.toNat, 'F'.toNat, 'L'.toNat, '3'.toNat] ∧
    (simpleGenBuffer n d).take 4 = TFL3_bytes ∧
    (∀ b ∈ (simpleGenBuffer n d).drop 4, b = 0) ∧
    (simpleGenBuffer n d).length = 1024 ∧
    (simpleGenBuffer n d).length = (simpleGenBuffer n2 d2).length ∧
    (tfliteStubBuffer i o).take 4 = TFL3_bytes ∧
    (∀ b ∈ (tfliteStubBuffer i o).drop 4, b = 0) ∧
    (tfliteStubBuffer i o).length = 1004 ∧
    (tfliteStubBuffer i o).length = (tfliteStubBuffer i2 o2).length := by
  have len1 : (simpleGenBuffer n d).length = 1024 := by
    show (TFL3_bytes ++ List.replicate 1020 0).length = 1024
    rw [List.length_append, List.length_replicate]
    decide
  have len2 : (tfliteStubBuffer i o).length = 1004 := by
    show (TFL3_bytes ++ List.replicate 1000 0).length = 1004
    rw [List.length_append, List.length_replicate]
    decide
  refine ⟨by decide, rfl, ?_, len1, rfl, rfl, ?_, len2, rfl⟩
  · intro b hb
    have : (simpleGenBuffer n d).drop 4 = List.replicate 1020 0 := rfl
    rw [this] at hb
    exact List.eq_of_mem_replicate hb
  · intro b hb
    have : (tfliteStubBuffer i o).drop 4 = List.replicate 1000 0 := rfl
    rw [this] at hb
    exact List.eq_of_mem_replicate hb

/-- Claim C4, applied at concrete model arguments. -/
theorem C4_buffers_fixed_layout_witness :
    (simpleGenBuffer "arrhythmia_risk_model" "Arrhythmia Detection").take 4 =
      TFL3_bytes :=
  (C4_buffers_fixed_layout "arrhythmia_risk_model" "Arrhythmia Detection"
    "anemia_risk_model" "Anemia Risk Assessment" 5 5 5 4).2.1

/-- Claim C9: `generate_minimal_tflite_stub` never reads its two size
parameters — all outputs are the byte-identical 1004-byte string
`TFL3` + 1000 zero bytes — so the arrhythmia (5,5), anemia (5,4) and
preeclampsia (5,4) placeholder models are equal. -/
theorem C9_stub_ignores_sizes (i o i2 o2 : Nat) :
    tfliteStubBuffer i o = tfliteStubBuffer i2 o2 ∧
    tfliteStubBuffer i o = TFL3_bytes ++ List.replicate 1000 0 ∧
    (tfliteStubBuffer i o).length = 1004 ∧
    arrhythmiaModel = anemiaModel ∧
    anemiaModel = preeclampsiaModel := by
  have len2 : (tfliteStubBuffer i o).length = 1004 := by
    show (TFL3_bytes ++ List.replicate 1000 0).length = 1004
    rw [List.length_append, List.length_replicate]
    decide
  exact ⟨rfl, rfl, len2, rfl, rfl⟩

/-- Claim C9, applied at the concrete size pairs of the three calls. -/
theorem C9_stub_ignores_sizes_witness :
    tfliteStubBuffer 5 5 = tfliteStubBuffer 5 4 :=
  (C9_stub_ignores_sizes 5 5 5 4).1

/-- Claim C5: for every model, the emission loop writes exactly one byte
literal per buffer byte, so the `<model_name>_tflite_len` constant the
header declares (the buffer length) equals the number of byte literals in
the `<model_name>_tflite` array, namely 1024; the header text carries
that number after `_tflite_len = `. -/
theorem C5_len_constant_matches_array (n d : String) :
    (byteChunks (simpleGenBuffer n d)).length = (simpleGenBuffer n d).length ∧
    (simpleGenBuffer n d).length = 1024 ∧
    (∃ pre post : String, headerText n d =
      pre ++ "_tflite_len = " ++
        toString (byteChunks (simpleGenBuffer n d)).length ++ post) := by
  have hlen : (byteChunks (simpleGenBuffer n d)).length =
      (simpleGenBuffer n d).length := by
    simp [byteChunks]
  have h1024 : (simpleGenBuffer n d).length = 1024 := by
    show (TFL3_bytes ++ List.replicate 1020 0).length = 1024
    rw [List.length_append, List.length_replicate]
    decide
  refine ⟨hlen, h1024,
    "#ifndef " ++ guardOf n ++ "\n" ++ "#define " ++ guardOf n ++ "\n\n" ++
      "// Model: " ++ d ++ "\n" ++
      "// NOTE: Placeholder - firmware uses rule-based AI\n\n" ++
      "const unsigned char " ++ n ++ "_tflite[] " ++
      "__attribute__((aligned(16))) = \x7b\n  " ++
      byteLiterals (simpleGenBuffer n d) ++ "\n\x7d;\n\n" ++
      "const unsigned int " ++ n,
    ";\n\n" ++ "#endif // " ++ guardOf n ++ "\n", ?_⟩
  rw [hlen]
  simp only [headerText, String.append_assoc]

/-- Claim C5, applied at a concrete model name. -/
theorem C5_len_constant_matches_array_witness :
    (simpleGenBuffer "anemia_risk_model" "Anemia Risk Assessment").length =
      1024 :=
  (C5_len_constant_matches_array "anemia_risk_model"
    "Anemia Risk Assessment").2.1

/-- Claim C7: every header the firmware script writes goes to
`models_h/<model_name>.h`, opens with an `#ifndef`/`#define` pair on the
guard `upper(model_name) + "_H"`, ends with the matching `#endif`, and
declares the `const unsigned char <model_name>_tflite[]` array of hex
byte literals and the `const unsigned int <model_name>_tflite_len`
constant. -/
theorem C7_header_shape (n d : String) :
    headerPath n = "models_h/" ++ n ++ ".h" ∧
    guardOf n = pyUpper n ++ "_H" ∧
    (∃ mid : String, headerText n d =
      "#ifndef " ++ guardOf n ++ "\n" ++ "#define " ++ guardOf n ++ "\n\n" ++
        mid ++ "#endif // " ++ guardOf n ++ "\n") ∧
    (∃ pre post : String, headerText n d =
      pre ++ "const unsigned char " ++ n ++ "_tflite[] " ++
        "__attribute__((aligned(16))) = \x7b\n  " ++
        byteLiterals (simpleGenBuffer n d) ++ "\n\x7d;\n\n" ++ post) ∧
    (∃ pre2 post2 : String, headerText n d =
      pre2 ++ "const unsigned int " ++ n ++ "_tflite_len = " ++
        toString (simpleGenBuffer n d).length ++ ";\n\n" ++ post2) := by
  refine ⟨rfl, rfl, ?_, ?_, ?_⟩
  · refine ⟨"// Model: " ++ d ++ "\n" ++
      "// NOTE: Placeholder - firmware uses rule-based AI\n\n" ++
      "const unsigned char " ++ n ++ "_tflite[] " ++
      "__attribute__((aligned(16))) = \x7b\n  " ++
      byteLiterals (simpleGenBuffer n d) ++ "\n\x7d;\n\n" ++
      "const unsigned int " ++ n ++ "_tflite_len = " ++
      toString (simpleGenBuffer n d).length ++ ";\n\n", ?_⟩
    simp only [headerText, String.append_assoc]
  · refine ⟨"#ifndef " ++ guardOf n ++ "\n" ++ "#define " ++ guardOf n ++
      "\n\n" ++ "// Model: " ++ d ++ "\n" ++
      "// NOTE: Placeholder - firmware uses rule-based AI\n\n",
      "const unsigned int " ++ n ++ "_tflite_len = " ++
      toString (simpleGenBuffer n d).length ++ ";\n\n" ++
      "#endif // " ++ guardOf n ++ "\n", ?_⟩
    simp only [headerText, String.append_assoc]
  · refine ⟨"#ifndef " ++ guardOf n ++ "\n" ++ "#define " ++ guardOf n ++
      "\n\n" ++ "// Model: " ++ d ++ "\n" ++
      "// NOTE: Placeholder - firmware uses rule-based AI\n\n" ++
      "const unsigned char " ++ n ++ "_tflite[] " ++
      "__attribute__((aligned(16))) = \x7b\n  " ++
      byteLiterals (simpleGenBuffer n d) ++ "\n\x7d;\n\n",
      "#endif // " ++ guardOf n ++ "\n", ?_⟩
    simp only [headerText, String.append_assoc]

/-- Claim C7, applied at a concrete model name. -/
theorem C7_header_shape_witness :
    headerPath "preeclampsia_risk_model" =
      "models_h/" ++ "preeclampsia_risk_model" ++ ".h" :=
  (C7_header_shape "preeclampsia_risk_model" "Preeclampsia Detection").1

/-- Claim C6: the entry point wraps `main` in a catch-all that prints the
exception message then a stack trace; `main` itself has a single
precondition check — a missing input file makes it print the error and
return before the import, texture-generation, material-assignment and
export steps — and the existing-file path runs the full fixed sequence
with no other check. -/
theorem C6_error_handling :
    (∀ msg : String, topLevel (some msg) =
      [TopOutput.errorMessage msg, TopOutput.stackTrace]) ∧
    topLevel none = [TopOutput.successMessage] ∧
    mainSteps false =
      [MainStep.printBanner, MainStep.clearScene, MainStep.printInputMissing] ∧
    MainStep.importGlbStep ∉ mainSteps false ∧
    MainStep.generateTexturesStep ∉ mainSteps false ∧
    MainStep.assignMaterialsStep ∉ mainSteps false ∧
    MainStep.exportGlbStep ∉ mainSteps false ∧
    mainSteps true =
      [MainStep.printBanner, MainStep.clearScene, MainStep.importGlbStep,
       MainStep.makeTextureDir, MainStep.generateTexturesStep,
       MainStep.createMaterialsStep, MainStep.assignMaterialsStep,
       MainStep.exportGlbStep, MainStep.printChecklist] :=
  ⟨fun _ => rfl, rfl, rfl, by decide, by decide, by decide, by decide, rfl⟩

/-- Claim C6, applied at a concrete exception message. -/
theorem C6_error_handling_witness :
    topLevel (some "boom") =
      [TopOutput.errorMessage "boom", TopOutput.stackTrace] :=
  C6_error_handling.1 "boom"

/-- Claim C8: the texture loop produces exactly three procedural images
(solid base color, normal map, roughness map) for each of the six
material types of `COLORS`, and the pipeline runs in the fixed order
clear scene, import GLB, generate textures, build the shader node
graphs, match mesh names and assign materials, export GLB. -/
theorem C8_three_textures_per_material :
    COLORS_keys.length = 6 ∧
    generatedTextures.length = 3 * COLORS_keys.length ∧
    (∀ k ∈ COLORS_keys, texturesFor k =
      [TexImage.simpleTexture (k ++ "_basecolor"),
       TexImage.normalMapTexture (k ++ "_normal"),
       TexImage.roughnessTexture (k ++ "_roughness")]) ∧
    mainSteps true =
      [MainStep.printBanner, MainStep.clearScene, MainStep.importGlbStep,
       MainStep.makeTextureDir, MainStep.generateTexturesStep,
       MainStep.createMaterialsStep, MainStep.assignMaterialsStep,
       MainStep.exportGlbStep, MainStep.printChecklist] := by
  refine ⟨rfl, by decide, ?_, rfl⟩
  intro k hk
  fin_cases hk <;> rfl

/-- Claim C8, applied at a concrete material type. -/
theorem C8_three_textures_per_material_witness :
    texturesFor "saree" =
      [TexImage.simpleTexture "saree_basecolor",
       TexImage.normalMapTexture "saree_normal",
       TexImage.roughnessTexture "saree_roughness"] :=
  C8_three_textures_per_material.2.2.1 "saree" (by decide)

/-- Claim C10: the assignment loop maps each scene object independently;
it leaves non-mesh objects and unmatched meshes untouched, and a matched
mesh has its slots cleared and replaced by the single matched PBR
material, ending with exactly one slot. -/
theorem C10_assignment_frame (obj : SceneObject) :
    (obj.objType ≠ "MESH" → assignOne obj = obj) ∧
    (meshMaterial obj.name = none → assignOne obj = obj) ∧
    (∀ mt : String, obj.objType = "MESH" → meshMaterial obj.name = some mt →
      assignOne obj = { obj with materials := [mt] } ∧
      (assignOne obj).materials.length = 1) ∧
    (∀ objs : List SceneObject, assignAll objs = objs.map assignOne) := by
  refine ⟨?_, ?_, ?_, fun _ => rfl⟩
  · intro h
    simp [assignOne, h]
  · intro h
    unfold assignOne
    rw [h]
    simp
  · intro mt hm hmt
    have hval : ((mt != "") && COLORS_keys.contains mt) = true := by
      have hmem : mt ∈ MESH_MATERIAL_MAP.map Prod.snd :=
        findMat_mem_values obj.name MESH_MATERIAL_MAP mt hmt
      fin_cases hmem <;> decide
    have hassign : assignOne obj = { obj with materials := [mt] } := by
      unfold assignOne
      rw [if_neg (by simp [hm]), hmt]
      show (if ((mt != "") && COLORS_keys.contains mt) = true then
          { obj with materials := [mt] } else obj) =
        { obj with materials := [mt] }
      exact if_pos hval
    refine ⟨hassign, ?_⟩
    rw [hassign]
    rfl

/-- Claim C10, applied to three concrete scene objects: a camera is left
alone, an unmatched mesh is left alone, and a matched mesh ends with the
single matched material slot. -/
theorem C10_assignment_frame_witness :
    assignOne ⟨"Camera", "CAMERA", ["old"]⟩ = ⟨"Camera", "CAMERA", ["old"]⟩ ∧
    assignOne ⟨"widget", "MESH", ["m1", "m2"]⟩ =
      ⟨"widget", "MESH", ["m1", "m2"]⟩ ∧
    assignOne ⟨"Pedestal", "MESH", ["m1", "m2"]⟩ =
      ⟨"Pedestal", "MESH", ["base"]⟩ :=
  ⟨(C10_assignment_frame ⟨"Camera", "CAMERA", ["old"]⟩).1 (by decide),
   (C10_assignment_frame ⟨"widget", "MESH", ["m1", "m2"]⟩).2.1 (by decide),
   ((C10_assignment_frame ⟨"Pedestal", "MESH", ["m1", "m2"]⟩).2.2.1 "base"
      rfl (by decide)).1⟩
